import Mathlib

/-!
# Verification of the XeroML Python SDK core

Shallow embedding of the `xeroml` package (files `errors.py`, `types.py`,
`client.py`, `async_client.py`, `session.py`) and proofs about it.

JSON values are modelled by the inductive `Json` below; Python dicts are
association lists (Python dict keys are unique; lookup takes the first
match).  A Python function that can raise an *unhandled* exception
(`AttributeError`, `KeyError`, `TypeError`, pydantic `ValidationError`)
is modelled as returning `Option`/`none` at the crash point.
-/

namespace XeromlSDK

/-- A JSON value.  Numbers are rationals (JSON numbers are decimal
literals; the SDK only compares and range-checks them). -/
inductive Json where
  | null : Json
  | bool : Bool → Json
  | num : Rat → Json
  | str : String → Json
  | arr : List Json → Json
  | obj : List (String × Json) → Json

mutual

/-- Size of a JSON value (used only as recursion fuel). -/
def Json.size : Json → Nat
  | Json.null => 1
  | Json.bool _ => 1
  | Json.num _ => 1
  | Json.str _ => 1
  | Json.arr xs => Json.sizeList xs + 1
  | Json.obj fs => Json.sizeFields fs + 1

/-- Size of the elements of a JSON array. -/
def Json.sizeList : List Json → Nat
  | [] => 0
  | x :: xs => Json.size x + Json.sizeList xs + 1

/-- Size of the fields of a JSON object. -/
def Json.sizeFields : List (String × Json) → Nat
  | [] => 0
  | (_, v) :: fs => Json.size v + Json.sizeFields fs + 1

end

/-- Python `d.get(k)` on a Python dict modelled as an association list:
first binding wins (dict keys are unique anyway). -/
def jget (k : String) : List (String × Json) → Option Json
  | [] => none
  | (k2, v) :: rest => if k2 = k then some v else jget k rest

/-! ## errors.py -/

/-- The Python exception class of a raised error: one tag per
`XeroMLError` subclass, `base` for a bare `XeroMLError`
(the generic-service-error branch of `raise_for_status`). -/
inductive ErrKind where
  | invalidAPIKey
  | creditsExhausted
  | rateLimited
  | parseFailed
  | sessionNotFound
  | sessionEnded
  | base
deriving DecidableEq

/-- Python `XeroMLError` instance data: `code`, `status`, `message`, `details`
as stored by `XeroMLError.__init__`, plus the concrete class (`kind`).
`code` and `message` are `Json` because Python's `dict.get` hands back
arbitrary values; the typed subclasses always store strings there. -/
structure XeroMLError where
  kind : ErrKind
  code : Json
  status : Nat
  message : Json
  details : Option Json

/-- Python `InvalidAPIKeyError(message=..., **kwargs)`: fixed code and status. -/
def InvalidAPIKeyError (message : Json := Json.str "Invalid or revoked API key.")
    (details : Option Json := none) : XeroMLError :=
  ⟨ErrKind.invalidAPIKey, Json.str "invalid_api_key", 401, message, details⟩

/-- Python `CreditsExhaustedError(message=..., details=None)`. -/
def CreditsExhaustedError (message : Json := Json.str "Credits exhausted.")
    (details : Option Json := none) : XeroMLError :=
  ⟨ErrKind.creditsExhausted, Json.str "credits_exhausted", 402, message, details⟩

/-- Python `RateLimitedError(message=..., **kwargs)`. -/
def RateLimitedError (message : Json := Json.str "Rate limit exceeded.")
    (details : Option Json := none) : XeroMLError :=
  ⟨ErrKind.rateLimited, Json.str "rate_limited", 429, message, details⟩

/-- Python `ParseFailedError(message=..., **kwargs)`. -/
def ParseFailedError (message : Json := Json.str "Parse failed.")
    (details : Option Json := none) : XeroMLError :=
  ⟨ErrKind.parseFailed, Json.str "parse_failed", 422, message, details⟩

/-- Python `SessionNotFoundError(message=..., **kwargs)`. -/
def SessionNotFoundError (message : Json := Json.str "Session not found.")
    (details : Option Json := none) : XeroMLError :=
  ⟨ErrKind.sessionNotFound, Json.str "session_not_found", 404, message, details⟩

/-- Python `SessionEndedError(message=..., **kwargs)`. -/
def SessionEndedError (message : Json := Json.str "Session is already completed.")
    (details : Option Json := none) : XeroMLError :=
  ⟨ErrKind.sessionEnded, Json.str "session_ended", 409, message, details⟩

/-- Python `_ERROR_MAP`: status code → error class, as the constructor taking
`(message, details)` exactly as `raise_for_status` calls it. -/
def ERROR_MAP : List (Nat × (Json → Option Json → XeroMLError)) :=
  [ (401, fun m d => InvalidAPIKeyError m d),
    (402, fun m d => CreditsExhaustedError m d),
    (429, fun m d => RateLimitedError m d),
    (422, fun m d => ParseFailedError m d),
    (404, fun m d => SessionNotFoundError m d),
    (409, fun m d => SessionEndedError m d) ]

/-- Python `_ERROR_MAP.get(status_code, XeroMLError)`: `none` stands for the
default `XeroMLError` (generic) branch. -/
def lookupErrorMap (status_code : Nat) :
    Option (Json → Option Json → XeroMLError) :=
  (ERROR_MAP.find? (fun p => p.1 = status_code)).map Prod.snd

/-- Python `error_data = body.get("error", body)` from
`raise_for_status`: the fields the classifier reads.  `none` models the
crash when that value is not a dict (Python would raise
`AttributeError` on `error_data.get`). -/
def error_payload (body : List (String × Json)) :
    Option (List (String × Json)) :=
  match (jget "error" body).getD (Json.obj body) with
  | Json.obj error_data => some error_data
  | _ => none

/-- Python `raise_for_status(status_code, body)` from `errors.py`.
Returns `some e` for the raised error `e`; `none` models the crash on a
non-dict `error_data`. -/
def raise_for_status (status_code : Nat) (body : List (String × Json)) :
    Option XeroMLError :=
  (error_payload body).bind fun error_data =>
    let message := (jget "message" error_data).getD (Json.str "Unknown error")
    let details := jget "details" error_data
    match lookupErrorMap status_code with
    | none =>
        some ⟨ErrKind.base, (jget "code" error_data).getD (Json.str "unknown"),
              status_code, message, details⟩
    | some error_cls => some (error_cls message details)

/-! ## types.py — pydantic models

Validation of raw JSON into the typed models.  Each pydantic field kind
gets a helper: `some v` is a successful field extraction, `none` a
`ValidationError`.  Extra keys are ignored (pydantic default).  A field
whose annotation is `float` accepts any JSON number; `int` accepts
integral numbers; `str` only strings; `Field(pattern=...)` with an
anchored alternation is membership in the fixed set. -/

/-- Required `str` field. -/
def reqStr (fs : List (String × Json)) (k : String) : Option String :=
  match jget k fs with
  | some (Json.str s) => some s
  | _ => none

/-- Python `str` field with a declared default: absent → default, present
non-string → rejected. -/
def strD (fs : List (String × Json)) (k : String) (d : String) : Option String :=
  match jget k fs with
  | some (Json.str s) => some s
  | some _ => none
  | none => some d

/-- Required `float = Field(ge=0.0, le=1.0)` field. -/
def reqUnitFloat (fs : List (String × Json)) (k : String) : Option Rat :=
  match jget k fs with
  | some (Json.num q) => if 0 ≤ q ∧ q ≤ 1 then some q else none
  | _ => none

/-- Python `float = Field(ge=0.0, le=1.0, default=d)` field. -/
def unitFloatD (fs : List (String × Json)) (k : String) (d : Rat) : Option Rat :=
  match jget k fs with
  | some (Json.num q) => if 0 ≤ q ∧ q ≤ 1 then some q else none
  | some _ => none
  | none => some d

/-- Required `str = Field(pattern=^(a|b|...)$)` field. -/
def reqEnumStr (allowed : List String) (fs : List (String × Json)) (k : String) :
    Option String :=
  match jget k fs with
  | some (Json.str s) => if s ∈ allowed then some s else none
  | _ => none

/-- Python `str = Field(default=d, pattern=^(a|b|...)$)` field. -/
def enumStrD (allowed : List String) (fs : List (String × Json)) (k : String)
    (d : String) : Option String :=
  match jget k fs with
  | some (Json.str s) => if s ∈ allowed then some s else none
  | some _ => none
  | none => some d

/-- A JSON value expected to be a list of strings. -/
def strList : Json → Option (List String)
  | Json.arr xs => xs.mapM (fun x => match x with
      | Json.str s => some s
      | _ => none)
  | _ => none

/-- Python `list[str] = []` field (default empty). -/
def strListD (fs : List (String × Json)) (k : String) : Option (List String) :=
  match jget k fs with
  | some j => strList j
  | none => some []

/-- Required `int` field (integral JSON numbers). -/
def reqInt (fs : List (String × Json)) (k : String) : Option Int :=
  match jget k fs with
  | some (Json.num q) => if q.den = 1 then some q.num else none
  | _ => none

/-- Python `int = d` field with default. -/
def intD (fs : List (String × Json)) (k : String) (d : Int) : Option Int :=
  match jget k fs with
  | some (Json.num q) => if q.den = 1 then some q.num else none
  | some _ => none
  | none => some d

/-- Required `bool` field. -/
def reqBool (fs : List (String × Json)) (k : String) : Option Bool :=
  match jget k fs with
  | some (Json.bool b) => some b
  | _ => none

/-- Python `str | None = None` field: absent or null → `none`. -/
def optStr (fs : List (String × Json)) (k : String) : Option (Option String) :=
  match jget k fs with
  | none => some none
  | some Json.null => some none
  | some (Json.str s) => some (some s)
  | some _ => none

/-- Python `float | None = None` field: absent or null → `none`; any JSON
number accepted (no range constraint). -/
def optFloat (fs : List (String × Json)) (k : String) : Option (Option Rat) :=
  match jget k fs with
  | none => some none
  | some Json.null => some none
  | some (Json.num q) => some (some q)
  | some _ => none

/-- Python `class LatentStates(BaseModel)`. -/
structure LatentStates where
  goal_intent : String
  action_readiness : String
  ambiguity_level : String
  risk_sensitivity : String
  intent_scope : String
deriving DecidableEq

/-- pydantic validation of `LatentStates` from a JSON object's fields. -/
def validateLatentStates (fs : List (String × Json)) : Option LatentStates := do
  let goal_intent ← reqStr fs "goal_intent"
  let action_readiness ← reqEnumStr ["exploring", "deciding", "executing"] fs "action_readiness"
  let ambiguity_level ← reqEnumStr ["clear", "partial", "conflicting"] fs "ambiguity_level"
  let risk_sensitivity ← reqEnumStr ["low", "medium", "high"] fs "risk_sensitivity"
  let intent_scope ← reqEnumStr ["single", "compound", "multi_step"] fs "intent_scope"
  some ⟨goal_intent, action_readiness, ambiguity_level, risk_sensitivity, intent_scope⟩

/-- Python `class IntentMeta(BaseModel)`. -/
structure IntentMeta where
  source : String
  confidence : Rat
  negotiation_history : List String
  latent_states : LatentStates
deriving DecidableEq

/-- Validation of the required `latent_states: LatentStates` field:
present dict → recursive validation, anything else → rejected. -/
def latentStatesField (fs : List (String × Json)) : Option LatentStates :=
  match jget "latent_states" fs with
  | some (Json.obj lfs) => validateLatentStates lfs
  | _ => none

/-- pydantic validation of `IntentMeta`. -/
def validateIntentMeta (fs : List (String × Json)) : Option IntentMeta := do
  let source ← strD fs "source" "user_input"
  let confidence ← reqUnitFloat fs "confidence"
  let negotiation_history ← strListD fs "negotiation_history"
  let latent_states ← latentStatesField fs
  some ⟨source, confidence, negotiation_history, latent_states⟩

/-- Python `class SubGoal(BaseModel)` — recursive via `children`. -/
inductive SubGoal where
  | mk : String → String → String → Rat → List String → List String → Rat →
      List String → String → List String → List SubGoal → SubGoal

def SubGoal.id : SubGoal → String
  | .mk v _ _ _ _ _ _ _ _ _ _ => v

def SubGoal.goal : SubGoal → String
  | .mk _ v _ _ _ _ _ _ _ _ _ => v

def SubGoal.status : SubGoal → String
  | .mk _ _ v _ _ _ _ _ _ _ _ => v

def SubGoal.priority : SubGoal → Rat
  | .mk _ _ _ v _ _ _ _ _ _ _ => v

def SubGoal.success_criteria : SubGoal → List String
  | .mk _ _ _ _ v _ _ _ _ _ _ => v

def SubGoal.constraints : SubGoal → List String
  | .mk _ _ _ _ _ v _ _ _ _ _ => v

def SubGoal.uncertainty : SubGoal → Rat
  | .mk _ _ _ _ _ _ v _ _ _ _ => v

def SubGoal.context_requirements : SubGoal → List String
  | .mk _ _ _ _ _ _ _ v _ _ _ => v

def SubGoal.modality : SubGoal → String
  | .mk _ _ _ _ _ _ _ _ v _ _ => v

def SubGoal.dependencies : SubGoal → List String
  | .mk _ _ _ _ _ _ _ _ _ v _ => v

def SubGoal.children : SubGoal → List SubGoal
  | .mk _ _ _ _ _ _ _ _ _ _ v => v

/-- The fixed vocabulary of `SubGoal.status`. -/
def subGoalStatusSet : List String :=
  ["pending", "active", "done", "blocked", "abandoned", "background"]

mutual

/-- Fuel-indexed pydantic validation of `SubGoal` (fuel only bounds the
recursion depth through `children`; `validateSubGoal` instantiates it
large enough for its input, so the fuel never runs out on a real call). -/
def validateSubGoalF : Nat → Json → Option SubGoal
  | 0, _ => none
  | fuel + 1, Json.obj fs => do
    let id ← reqStr fs "id"
    let goal ← reqStr fs "goal"
    let status ← enumStrD subGoalStatusSet fs "status" "pending"
    let priority ← reqUnitFloat fs "priority"
    let success_criteria ← strListD fs "success_criteria"
    let constraints ← strListD fs "constraints"
    let uncertainty ← unitFloatD fs "uncertainty" (mkRat 1 2)
    let context_requirements ← strListD fs "context_requirements"
    let modality ← strD fs "modality" "text"
    let dependencies ← strListD fs "dependencies"
    let children ← validateChildrenF fuel fs
    some (SubGoal.mk id goal status priority success_criteria constraints
      uncertainty context_requirements modality dependencies children)
  | _ + 1, _ => none

/-- Fuel-indexed validation of the `children: list[SubGoal] = []` field
(absent → empty list; present non-list → rejected; present list →
each element validated recursively). -/
def validateChildrenF : Nat → List (String × Json) → Option (List SubGoal)
  | 0, _ => none
  | fuel + 1, fs =>
    match (jget "children" fs).getD (Json.arr []) with
    | Json.arr xs => validateSubGoalListF fuel xs
    | _ => none

/-- Fuel-indexed validation of a list of `SubGoal` payloads. -/
def validateSubGoalListF : Nat → List Json → Option (List SubGoal)
  | _, [] => some []
  | 0, _ :: _ => none
  | fuel + 1, x :: xs => do
    let s ← validateSubGoalF fuel x
    let rest ← validateSubGoalListF fuel xs
    some (s :: rest)

end

/-- Fuel sufficient for any `Json` value: its size. -/
def validateSubGoal (j : Json) : Option SubGoal :=
  validateSubGoalF (Json.size j) j

/-- Python `class IntentGraph(BaseModel)`. -/
structure IntentGraph where
  schema_version : String
  root_goal : String
  sub_goals : List SubGoal
  meta : IntentMeta

/-- Validation of the required `sub_goals: list[SubGoal]` field:
present list → each element validated recursively, else rejected. -/
def subGoalsField (fs : List (String × Json)) : Option (List SubGoal) :=
  match jget "sub_goals" fs with
  | some (Json.arr xs) => validateSubGoalListF (Json.sizeList xs) xs
  | _ => none

/-- Validation of the required `meta: IntentMeta` field. -/
def metaField (fs : List (String × Json)) : Option IntentMeta :=
  match jget "meta" fs with
  | some (Json.obj mfs) => validateIntentMeta mfs
  | _ => none

/-- pydantic validation of `IntentGraph` from a JSON object's fields. -/
def validateIntentGraph (fs : List (String × Json)) : Option IntentGraph := do
  let schema_version ← strD fs "schema_version" "0.1.0"
  let root_goal ← reqStr fs "root_goal"
  let sub_goals ← subGoalsField fs
  let meta ← metaField fs
  some ⟨schema_version, root_goal, sub_goals, meta⟩

/-- Python `class DriftReport(BaseModel)`.  Note: `severity` is a plain
`float | None = None` — the source puts no range constraint on it. -/
structure DriftReport where
  detected : Bool
  drift_type : Option String
  severity : Option Rat
  description : Option String
  previous_goal : Option String
  current_goal : Option String
deriving DecidableEq

/-- pydantic validation of `DriftReport`. -/
def validateDriftReport (fs : List (String × Json)) : Option DriftReport := do
  let detected ← reqBool fs "detected"
  let drift_type ← optStr fs "drift_type"
  let severity ← optFloat fs "severity"
  let description ← optStr fs "description"
  let previous_goal ← optStr fs "previous_goal"
  let current_goal ← optStr fs "current_goal"
  some ⟨detected, drift_type, severity, description, previous_goal, current_goal⟩

/-- Python `class SessionInfo(BaseModel)`. -/
structure SessionInfo where
  session_id : String
  status : String
  turn_count : Int
  created_at : String
  updated_at : String
deriving DecidableEq

/-- pydantic validation of `SessionInfo` from a JSON value
(`SessionInfo(**s)` needs `s` to be a dict; anything else crashes). -/
def validateSessionInfo (j : Json) : Option SessionInfo :=
  match j with
  | Json.obj fs => do
    let session_id ← reqStr fs "session_id"
    let status ← reqStr fs "status"
    let turn_count ← reqInt fs "turn_count"
    let created_at ← reqStr fs "created_at"
    let updated_at ← reqStr fs "updated_at"
    some ⟨session_id, status, turn_count, created_at, updated_at⟩
  | _ => none

/-- Python `class CreditInfo(BaseModel)`. -/
structure CreditInfo where
  used : Int
  total : Int
  remaining : Int
deriving DecidableEq

/-- pydantic validation of `CreditInfo`. -/
def validateCreditInfo (fs : List (String × Json)) : Option CreditInfo := do
  let used ← reqInt fs "used"
  let total ← reqInt fs "total"
  let remaining ← reqInt fs "remaining"
  some ⟨used, total, remaining⟩

/-- Python `class UsageMonth(BaseModel)`. -/
structure UsageMonth where
  month : String
  parse_calls : Int
  drift_checks : Int
  session_creates : Int
  total_latency_ms : Int
deriving DecidableEq

/-- pydantic validation of `UsageMonth` from a JSON value. -/
def validateUsageMonth (j : Json) : Option UsageMonth :=
  match j with
  | Json.obj fs => do
    let month ← reqStr fs "month"
    let parse_calls ← reqInt fs "parse_calls"
    let drift_checks ← reqInt fs "drift_checks"
    let session_creates ← reqInt fs "session_creates"
    let total_latency_ms ← intD fs "total_latency_ms" 0
    some ⟨month, parse_calls, drift_checks, session_creates, total_latency_ms⟩
  | _ => none

/-- Python `class UsageInfo(BaseModel)`. -/
structure UsageInfo where
  credits : CreditInfo
  tier : String
  rate_limit : Int
  usage : List UsageMonth
deriving DecidableEq

/-- Validation of the required `credits: CreditInfo` field. -/
def creditsField (fs : List (String × Json)) : Option CreditInfo :=
  match jget "credits" fs with
  | some (Json.obj cfs) => validateCreditInfo cfs
  | _ => none

/-- Validation of the `usage: list[UsageMonth] = []` field (absent →
empty list). -/
def usageField (fs : List (String × Json)) : Option (List UsageMonth) :=
  match jget "usage" fs with
  | some (Json.arr xs) => xs.mapM validateUsageMonth
  | some _ => none
  | none => some []

/-- pydantic validation of `UsageInfo` from a JSON object's fields. -/
def validateUsageInfo (fs : List (String × Json)) : Option UsageInfo := do
  let credits ← creditsField fs
  let tier ← reqStr fs "tier"
  let rate_limit ← reqInt fs "rate_limit"
  let usage ← usageField fs
  some ⟨credits, tier, rate_limit, usage⟩

/-! ## Request executor (clients and sessions)

Each operation of `client.py`, `async_client.py` and `session.py` is
split into the request it sends (`RequestSpec`) and the pure decoding of
the response body.  The sync and async variants are transcribed
separately from their respective files so their equality is a theorem
about the code, not a modelling artifact. -/

/-- An HTTP request as issued through `self._request(method, path, json=body)`:
`body = none` when no `json=` keyword is passed (GET calls). -/
structure RequestSpec where
  method : String
  path : String
  body : Option (List (String × Json))

/-- Python `httpx.Response.is_success`: status in [200, 300). -/
def is_success (status_code : Nat) : Bool :=
  decide (200 ≤ status_code ∧ status_code < 300)

/-- Python `XeroML._request` response handling: success passes the body
through; non-success routes (status, body) through `raise_for_status`.
`none` models a crash (`raise_for_status` called on a non-dict body). -/
def XeroML.request_handle (status_code : Nat) (body : Json) :
    Option (Except XeroMLError Json) :=
  if is_success status_code then some (Except.ok body)
  else match body with
    | Json.obj fs => (raise_for_status status_code fs).map Except.error
    | _ => none

/-- Python `AsyncXeroML._request` response handling (same logic, `async_client.py`). -/
def AsyncXeroML.request_handle (status_code : Nat) (body : Json) :
    Option (Except XeroMLError Json) :=
  if is_success status_code then some (Except.ok body)
  else match body with
    | Json.obj fs => (raise_for_status status_code fs).map Except.error
    | _ => none

/-- Body built by `XeroML.parse`: `{"message": message}`, plus
`"provider"` only when a provider is given. -/
def XeroML.parse_body (message : String) (provider : Option String) :
    List (String × Json) :=
  let body := [("message", Json.str message)]
  match provider with
  | some p => body ++ [("provider", Json.str p)]
  | none => body

/-- Request issued by `XeroML.parse`. -/
def XeroML.parse_request (message : String) (provider : Option String) :
    RequestSpec :=
  ⟨"POST", "/v1/parse", some (XeroML.parse_body message provider)⟩

/-- Python `IntentGraph(**data.get("graph", data))` from `XeroML.parse`:
crashes (`none`) when `data` is not a dict or the unwrapped value is
not a dict. -/
def XeroML.parse_decode (data : Json) : Option IntentGraph :=
  match data with
  | Json.obj fs =>
    match (jget "graph" fs).getD (Json.obj fs) with
    | Json.obj gfs => validateIntentGraph gfs
    | _ => none
  | _ => none

/-- Body built by `XeroML.create_session`. -/
def XeroML.create_session_body (session_id : Option String) :
    List (String × Json) :=
  let body : List (String × Json) := []
  match session_id with
  | some sid => body ++ [("session_id", Json.str sid)]
  | none => body

/-- Request issued by `XeroML.create_session`. -/
def XeroML.create_session_request (session_id : Option String) : RequestSpec :=
  ⟨"POST", "/v1/sessions", some (XeroML.create_session_body session_id)⟩

/-- Python `res.json()["session_id"]` from `XeroML.create_session`: the id the
returned `Session` is built with (`none` = `KeyError`/`TypeError`). -/
def XeroML.create_session_decode (data : Json) : Option Json :=
  match data with
  | Json.obj fs => jget "session_id" fs
  | _ => none

/-- Request issued by `XeroML.list_sessions`. -/
def XeroML.list_sessions_request : RequestSpec :=
  ⟨"GET", "/v1/sessions", none⟩

/-- Python `[SessionInfo(**s) for s in res.json().get("sessions", res.json())]`:
when the body is not a dict, `.get` raises `AttributeError` (`none`);
when the unwrapped value is not a list, iteration misbehaves or crashes
(`none`). -/
def XeroML.list_sessions_decode (data : Json) : Option (List SessionInfo) :=
  match data with
  | Json.obj fs =>
    match (jget "sessions" fs).getD (Json.obj fs) with
    | Json.arr xs => xs.mapM validateSessionInfo
    | _ => none
  | _ => none

/-- Request issued by `XeroML.get_usage`. -/
def XeroML.get_usage_request : RequestSpec :=
  ⟨"GET", "/v1/usage", none⟩

/-- Python `UsageInfo(**res.json())` from `XeroML.get_usage`. -/
def XeroML.get_usage_decode (data : Json) : Option UsageInfo :=
  match data with
  | Json.obj fs => validateUsageInfo fs
  | _ => none

/-- Body built by `AsyncXeroML.parse` (`async_client.py`). -/
def AsyncXeroML.parse_body (message : String) (provider : Option String) :
    List (String × Json) :=
  let body := [("message", Json.str message)]
  match provider with
  | some p => body ++ [("provider", Json.str p)]
  | none => body

/-- Request issued by `AsyncXeroML.parse`. -/
def AsyncXeroML.parse_request (message : String) (provider : Option String) :
    RequestSpec :=
  ⟨"POST", "/v1/parse", some (AsyncXeroML.parse_body message provider)⟩

/-- Python `IntentGraph(**data.get("graph", data))` from `AsyncXeroML.parse`. -/
def AsyncXeroML.parse_decode (data : Json) : Option IntentGraph :=
  match data with
  | Json.obj fs =>
    match (jget "graph" fs).getD (Json.obj fs) with
    | Json.obj gfs => validateIntentGraph gfs
    | _ => none
  | _ => none

/-- Body built by `AsyncXeroML.create_session`. -/
def AsyncXeroML.create_session_body (session_id : Option String) :
    List (String × Json) :=
  let body : List (String × Json) := []
  match session_id with
  | some sid => body ++ [("session_id", Json.str sid)]
  | none => body

/-- Request issued by `AsyncXeroML.create_session`. -/
def AsyncXeroML.create_session_request (session_id : Option String) :
    RequestSpec :=
  ⟨"POST", "/v1/sessions", some (AsyncXeroML.create_session_body session_id)⟩

/-- Python `res.json()["session_id"]` from `AsyncXeroML.create_session`. -/
def AsyncXeroML.create_session_decode (data : Json) : Option Json :=
  match data with
  | Json.obj fs => jget "session_id" fs
  | _ => none

/-- Request issued by `AsyncXeroML.list_sessions`. -/
def AsyncXeroML.list_sessions_request : RequestSpec :=
  ⟨"GET", "/v1/sessions", none⟩

/-- Python `[SessionInfo(**s) for s in res.json().get("sessions", res.json())]`
from `AsyncXeroML.list_sessions`. -/
def AsyncXeroML.list_sessions_decode (data : Json) : Option (List SessionInfo) :=
  match data with
  | Json.obj fs =>
    match (jget "sessions" fs).getD (Json.obj fs) with
    | Json.arr xs => xs.mapM validateSessionInfo
    | _ => none
  | _ => none

/-- Request issued by `AsyncXeroML.get_usage`. -/
def AsyncXeroML.get_usage_request : RequestSpec :=
  ⟨"GET", "/v1/usage", none⟩

/-- Python `UsageInfo(**res.json())` from `AsyncXeroML.get_usage`. -/
def AsyncXeroML.get_usage_decode (data : Json) : Option UsageInfo :=
  match data with
  | Json.obj fs => validateUsageInfo fs
  | _ => none

/-- Body built by `Session.parse` (`session.py`). -/
def Session.parse_body (message : String) (provider : Option String) :
    List (String × Json) :=
  let body := [("message", Json.str message)]
  match provider with
  | some p => body ++ [("provider", Json.str p)]
  | none => body

/-- Request issued by `Session.parse`. -/
def Session.parse_request (session_id : String) (message : String)
    (provider : Option String) : RequestSpec :=
  ⟨"POST", "/v1/sessions/" ++ session_id ++ "/parse",
    some (Session.parse_body message provider)⟩

/-- Python `IntentGraph(**data.get("graph", data))` from `Session.parse`. -/
def Session.parse_decode (data : Json) : Option IntentGraph :=
  match data with
  | Json.obj fs =>
    match (jget "graph" fs).getD (Json.obj fs) with
    | Json.obj gfs => validateIntentGraph gfs
    | _ => none
  | _ => none

/-- Request issued by `Session.update` (role defaults to `"assistant"`). -/
def Session.update_request (session_id : String) (response : String)
    (role : String := "assistant") : RequestSpec :=
  ⟨"POST", "/v1/sessions/" ++ session_id ++ "/update",
    some [("response", Json.str response), ("role", Json.str role)]⟩

/-- Request issued by `Session.check_drift`. -/
def Session.check_drift_request (session_id : String) : RequestSpec :=
  ⟨"GET", "/v1/sessions/" ++ session_id ++ "/drift", none⟩

/-- Python `DriftReport(**res.json())` from `Session.check_drift`. -/
def Session.check_drift_decode (data : Json) : Option DriftReport :=
  match data with
  | Json.obj fs => validateDriftReport fs
  | _ => none

/-- Request issued by `Session.get_graph`. -/
def Session.get_graph_request (session_id : String) : RequestSpec :=
  ⟨"GET", "/v1/sessions/" ++ session_id ++ "/graph", none⟩

/-- Python `IntentGraph(**data.get("graph", data))` from `Session.get_graph`. -/
def Session.get_graph_decode (data : Json) : Option IntentGraph :=
  match data with
  | Json.obj fs =>
    match (jget "graph" fs).getD (Json.obj fs) with
    | Json.obj gfs => validateIntentGraph gfs
    | _ => none
  | _ => none

/-- Request issued by `Session.end` (empty JSON body). -/
def Session.end_request (session_id : String) : RequestSpec :=
  ⟨"POST", "/v1/sessions/" ++ session_id ++ "/end", some []⟩

/-- Body built by `AsyncSession.parse` (`session.py`). -/
def AsyncSession.parse_body (message : String) (provider : Option String) :
    List (String × Json) :=
  let body := [("message", Json.str message)]
  match provider with
  | some p => body ++ [("provider", Json.str p)]
  | none => body

/-- Request issued by `AsyncSession.parse`. -/
def AsyncSession.parse_request (session_id : String) (message : String)
    (provider : Option String) : RequestSpec :=
  ⟨"POST", "/v1/sessions/" ++ session_id ++ "/parse",
    some (AsyncSession.parse_body message provider)⟩

/-- Python `IntentGraph(**data.get("graph", data))` from `AsyncSession.parse`. -/
def AsyncSession.parse_decode (data : Json) : Option IntentGraph :=
  match data with
  | Json.obj fs =>
    match (jget "graph" fs).getD (Json.obj fs) with
    | Json.obj gfs => validateIntentGraph gfs
    | _ => none
  | _ => none

/-- Request issued by `AsyncSession.update`. -/
def AsyncSession.update_request (session_id : String) (response : String)
    (role : String := "assistant") : RequestSpec :=
  ⟨"POST", "/v1/sessions/" ++ session_id ++ "/update",
    some [("response", Json.str response), ("role", Json.str role)]⟩

/-- Request issued by `AsyncSession.check_drift`. -/
def AsyncSession.check_drift_request (session_id : String) : RequestSpec :=
  ⟨"GET", "/v1/sessions/" ++ session_id ++ "/drift", none⟩

/-- Python `DriftReport(**res.json())` from `AsyncSession.check_drift`. -/
def AsyncSession.check_drift_decode (data : Json) : Option DriftReport :=
  match data with
  | Json.obj fs => validateDriftReport fs
  | _ => none

/-- Request issued by `AsyncSession.get_graph`. -/
def AsyncSession.get_graph_request (session_id : String) : RequestSpec :=
  ⟨"GET", "/v1/sessions/" ++ session_id ++ "/graph", none⟩

/-- Python `IntentGraph(**data.get("graph", data))` from `AsyncSession.get_graph`. -/
def AsyncSession.get_graph_decode (data : Json) : Option IntentGraph :=
  match data with
  | Json.obj fs =>
    match (jget "graph" fs).getD (Json.obj fs) with
    | Json.obj gfs => validateIntentGraph gfs
    | _ => none
  | _ => none

/-- Request issued by `AsyncSession.end` (empty JSON body). -/
def AsyncSession.end_request (session_id : String) : RequestSpec :=
  ⟨"POST", "/v1/sessions/" ++ session_id ++ "/end", some []⟩

/-! ## The package entry point (`__init__.py`) -/

/-- The class names `types.py` actually defines, in source order. -/
def types_defined_names : List String :=
  [ "LatentStates", "IntentMeta", "SubGoal", "IntentGraph", "ParseResponse",
    "DriftReport", "SessionInfo", "CreditInfo", "UsageMonth", "UsageInfo" ]

/-- The names `__init__.py` imports `from .types import (...)`. -/
def init_types_import_names : List String :=
  [ "CreditInfo", "DriftEvent", "DriftReport", "GraphTurn", "IntentGraph",
    "IntentMeta", "LatentStates", "ParseResponse", "SessionHistoryResponse",
    "SessionInfo", "SubGoal", "UsageInfo", "UsageMonth" ]

/-- Python `import xeroml` succeeds only if every name the `from .types import`
statement asks for is defined by `types.py` (otherwise Python raises
`ImportError` while executing `__init__.py`). -/
def package_import_succeeds : Bool :=
  init_types_import_names.all (fun n => types_defined_names.contains n)

/-! ## Sample payloads (the repository's own test fixtures) -/

/-- The `latent_states` object of the test fixture `SAMPLE_GRAPH`. -/
def sampleLatent : List (String × Json) :=
  [ ("goal_intent", Json.str "refactoring"),
    ("action_readiness", Json.str "executing"),
    ("ambiguity_level", Json.str "clear"),
    ("risk_sensitivity", Json.str "medium"),
    ("intent_scope", Json.str "compound") ]

/-- The single sub-goal of `SAMPLE_GRAPH`. -/
def sampleSubGoal : List (String × Json) :=
  [ ("id", Json.str "sg_001"),
    ("goal", Json.str "Add OAuth2 support"),
    ("status", Json.str "pending"),
    ("priority", Json.num (mkRat 9 10)),
    ("success_criteria", Json.arr [Json.str "OAuth2 flow works"]),
    ("constraints", Json.arr []),
    ("uncertainty", Json.num (mkRat 3 10)),
    ("context_requirements", Json.arr []),
    ("modality", Json.str "code"),
    ("dependencies", Json.arr []),
    ("children", Json.arr []) ]

/-- The `meta` object of `SAMPLE_GRAPH`. -/
def sampleMeta : List (String × Json) :=
  [ ("source", Json.str "user_input"),
    ("confidence", Json.num (mkRat 17 20)),
    ("negotiation_history", Json.arr []),
    ("latent_states", Json.obj sampleLatent) ]

/-- Python `SAMPLE_GRAPH` from the repository's unit tests. -/
def sampleGraph : List (String × Json) :=
  [ ("schema_version", Json.str "0.1.0"),
    ("root_goal", Json.str "Refactor auth module"),
    ("sub_goals", Json.arr [Json.obj sampleSubGoal]),
    ("meta", Json.obj sampleMeta) ]

/-- A `SessionInfo` payload from the repository's unit tests. -/
def sampleSession : List (String × Json) :=
  [ ("session_id", Json.str "s1"),
    ("status", Json.str "active"),
    ("turn_count", Json.num 2),
    ("created_at", Json.str "2026-01-01T00:00:00Z"),
    ("updated_at", Json.str "2026-01-01T00:01:00Z") ]

/-- Body of `SAMPLE_PARSE_RESPONSE` from the unit tests: the graph
nested under a `graph` key next to `request_id` and `latency_ms`. -/
def sampleParseResponse : List (String × Json) :=
  [ ("graph", Json.obj sampleGraph),
    ("request_id", Json.str "req_abc123"),
    ("latency_ms", Json.num 150) ]

/-- A sub-goal payload carrying only the required fields, so every
defaulted field is absent. -/
def minimalSubGoal : List (String × Json) :=
  [("id", Json.str "sg"), ("goal", Json.str "g"), ("priority", Json.num 1)]

/-- The 500-status error body used in the unit test `test_unknown_error`. -/
def sampleErrorData : List (String × Json) :=
  [("code", Json.str "internal_error"), ("message", Json.str "Server error")]

/-- The same error fields wrapped under an `error` key. -/
def sampleErrorBody : List (String × Json) :=
  [("error", Json.obj sampleErrorData)]

/-! ## Theorems -/

/-- Statuses outside the `_ERROR_MAP` table fall through to the generic
branch. -/
lemma lookupErrorMap_eq_none {s : Nat}
    (h : s ∉ ([401, 402, 422, 429, 404, 409] : List Nat)) :
    lookupErrorMap s = none := by
  simp only [List.mem_cons, List.not_mem_nil, or_false] at h
  push_neg at h
  obtain ⟨h1, h2, h3, h4, h5, h6⟩ := h
  simp [lookupErrorMap, ERROR_MAP, List.find?, Ne.symm h1, Ne.symm h2,
    Ne.symm h3, Ne.symm h4, Ne.symm h5, Ne.symm h6]

/-- Every class in the `_ERROR_MAP` table stores the message it is
called with. -/
lemma errorMap_ctor_message {s : Nat} {cls : Json → Option Json → XeroMLError}
    (h : lookupErrorMap s = some cls) (m : Json) (d : Option Json) :
    (cls m d).message = m := by
  unfold lookupErrorMap at h
  cases hf : List.find? (fun p => p.1 = s) ERROR_MAP with
  | none => rw [hf] at h; simp at h
  | some pr =>
    rw [hf] at h
    simp only [Option.map_some'] at h
    have hmem := List.mem_of_find?_eq_some hf
    have h2 := Option.some.inj h
    rw [← h2]
    fin_cases hmem <;> rfl

/-- Claim C10: importing the public package entry point fails
unconditionally: `__init__.py` imports `DriftEvent`, `GraphTurn` and
`SessionHistoryResponse` from the types module, but `types.py` defines
no such names, so `import xeroml` raises an import-time failure before
any operation can run. -/
theorem C10_package_import_fails :
    package_import_succeeds = false ∧
    "DriftEvent" ∈ init_types_import_names ∧
    "GraphTurn" ∈ init_types_import_names ∧
    "SessionHistoryResponse" ∈ init_types_import_names ∧
    "DriftEvent" ∉ types_defined_names ∧
    "GraphTurn" ∉ types_defined_names ∧
    "SessionHistoryResponse" ∉ types_defined_names := by
  decide

/-- Claim C8: the one-shot parse and session parse operations send a
body with exactly the key `message` when no provider is given (the
`provider` key is absent, not null), and exactly the keys `message` and
`provider` when one is given. -/
theorem C8_provider_key_omitted (message p session_id : String) :
    (XeroML.parse_body message none).map Prod.fst = ["message"] ∧
    jget "provider" (XeroML.parse_body message none) = none ∧
    jget "message" (XeroML.parse_body message none) = some (Json.str message) ∧
    (XeroML.parse_body message (some p)).map Prod.fst = ["message", "provider"] ∧
    jget "provider" (XeroML.parse_body message (some p)) = some (Json.str p) ∧
    Session.parse_body message none = XeroML.parse_body message none ∧
    Session.parse_body message (some p) = XeroML.parse_body message (some p) ∧
    XeroML.parse_request message none =
      ⟨"POST", "/v1/parse", some (XeroML.parse_body message none)⟩ ∧
    Session.parse_request session_id message none =
      ⟨"POST", "/v1/sessions/" ++ session_id ++ "/parse",
        some (Session.parse_body message none)⟩ := by
  exact ⟨rfl, rfl, rfl, rfl, rfl, rfl, rfl, rfl, rfl⟩

/-- Claim C9: for every operation the synchronous and the asynchronous
client build the same request (method, path, body) and decode or
classify the response identically, so both produce the same observable
result on every response. -/
theorem C9_sync_async_lockstep :
    (∀ m p, XeroML.parse_request m p = AsyncXeroML.parse_request m p) ∧
    (∀ d, XeroML.parse_decode d = AsyncXeroML.parse_decode d) ∧
    (∀ sid, XeroML.create_session_request sid = AsyncXeroML.create_session_request sid) ∧
    (∀ d, XeroML.create_session_decode d = AsyncXeroML.create_session_decode d) ∧
    XeroML.list_sessions_request = AsyncXeroML.list_sessions_request ∧
    (∀ d, XeroML.list_sessions_decode d = AsyncXeroML.list_sessions_decode d) ∧
    XeroML.get_usage_request = AsyncXeroML.get_usage_request ∧
    (∀ d, XeroML.get_usage_decode d = AsyncXeroML.get_usage_decode d) ∧
    (∀ s b, XeroML.request_handle s b = AsyncXeroML.request_handle s b) ∧
    (∀ sid m p, Session.parse_request sid m p = AsyncSession.parse_request sid m p) ∧
    (∀ d, Session.parse_decode d = AsyncSession.parse_decode d) ∧
    (∀ sid r role, Session.update_request sid r role = AsyncSession.update_request sid r role) ∧
    (∀ sid, Session.check_drift_request sid = AsyncSession.check_drift_request sid) ∧
    (∀ d, Session.check_drift_decode d = AsyncSession.check_drift_decode d) ∧
    (∀ sid, Session.get_graph_request sid = AsyncSession.get_graph_request sid) ∧
    (∀ d, Session.get_graph_decode d = AsyncSession.get_graph_decode d) ∧
    (∀ sid, Session.end_request sid = AsyncSession.end_request sid) := by
  refine ⟨fun _ _ => rfl, fun _ => rfl, fun _ => rfl, fun _ => rfl, rfl,
    fun _ => rfl, rfl, fun _ => rfl, fun _ _ => rfl, fun _ _ _ => rfl,
    fun _ => rfl, fun _ _ _ => rfl, fun _ => rfl, fun _ => rfl,
    fun _ => rfl, fun _ => rfl, fun _ => rfl⟩

/-- Claim C1: classifying a well-formed error body yields exactly the
mapped error kind with its fixed code string and status integer for
each status in the table (401, 402, 422, 429, 404, 409), and for every
other status the generic error carrying the body code or `unknown`. -/
theorem C1_status_table (body ed : List (String × Json))
    (h : error_payload body = some ed) :
    ((raise_for_status 401 body).map XeroMLError.kind = some ErrKind.invalidAPIKey ∧
     (raise_for_status 401 body).map XeroMLError.code = some (Json.str "invalid_api_key") ∧
     (raise_for_status 401 body).map XeroMLError.status = some 401) ∧
    ((raise_for_status 402 body).map XeroMLError.kind = some ErrKind.creditsExhausted ∧
     (raise_for_status 402 body).map XeroMLError.code = some (Json.str "credits_exhausted") ∧
     (raise_for_status 402 body).map XeroMLError.status = some 402) ∧
    ((raise_for_status 422 body).map XeroMLError.kind = some ErrKind.parseFailed ∧
     (raise_for_status 422 body).map XeroMLError.code = some (Json.str "parse_failed") ∧
     (raise_for_status 422 body).map XeroMLError.status = some 422) ∧
    ((raise_for_status 429 body).map XeroMLError.kind = some ErrKind.rateLimited ∧
     (raise_for_status 429 body).map XeroMLError.code = some (Json.str "rate_limited") ∧
     (raise_for_status 429 body).map XeroMLError.status = some 429) ∧
    ((raise_for_status 404 body).map XeroMLError.kind = some ErrKind.sessionNotFound ∧
     (raise_for_status 404 body).map XeroMLError.code = some (Json.str "session_not_found") ∧
     (raise_for_status 404 body).map XeroMLError.status = some 404) ∧
    ((raise_for_status 409 body).map XeroMLError.kind = some ErrKind.sessionEnded ∧
     (raise_for_status 409 body).map XeroMLError.code = some (Json.str "session_ended") ∧
     (raise_for_status 409 body).map XeroMLError.status = some 409) ∧
    (∀ s, s ∉ ([401, 402, 422, 429, 404, 409] : List Nat) →
      (raise_for_status s body).map XeroMLError.kind = some ErrKind.base ∧
      (raise_for_status s body).map XeroMLError.status = some s ∧
      (raise_for_status s body).map XeroMLError.code =
        some ((jget "code" ed).getD (Json.str "unknown"))) := by
  have key : ∀ s : Nat, raise_for_status s body =
      (let message := (jget "message" ed).getD (Json.str "Unknown error")
       let details := jget "details" ed
       match lookupErrorMap s with
       | none => some ⟨ErrKind.base, (jget "code" ed).getD (Json.str "unknown"),
                       s, message, details⟩
       | some error_cls => some (error_cls message details)) := by
    intro s
    simp only [raise_for_status, h, Option.some_bind]
  refine ⟨⟨?_, ?_, ?_⟩, ⟨?_, ?_, ?_⟩, ⟨?_, ?_, ?_⟩, ⟨?_, ?_, ?_⟩,
    ⟨?_, ?_, ?_⟩, ⟨?_, ?_, ?_⟩, ?_⟩
  case _ => rw [key 401]; rfl
  case _ => rw [key 401]; rfl
  case _ => rw [key 401]; rfl
  case _ => rw [key 402]; rfl
  case _ => rw [key 402]; rfl
  case _ => rw [key 402]; rfl
  case _ => rw [key 422]; rfl
  case _ => rw [key 422]; rfl
  case _ => rw [key 422]; rfl
  case _ => rw [key 429]; rfl
  case _ => rw [key 429]; rfl
  case _ => rw [key 429]; rfl
  case _ => rw [key 404]; rfl
  case _ => rw [key 404]; rfl
  case _ => rw [key 404]; rfl
  case _ => rw [key 409]; rfl
  case _ => rw [key 409]; rfl
  case _ => rw [key 409]; rfl
  case _ =>
    intro s hs
    rw [key s, lookupErrorMap_eq_none hs]
    exact ⟨rfl, rfl, rfl⟩

/-- Witness for C1 at the 500-status body of the unit test
`test_unknown_error` and at 401. -/
theorem C1_status_table_witness :
    (raise_for_status 401 sampleErrorBody).map XeroMLError.kind =
      some ErrKind.invalidAPIKey ∧
    (raise_for_status 500 sampleErrorBody).map XeroMLError.code =
      some (Json.str "internal_error") := by
  refine ⟨(C1_status_table sampleErrorBody sampleErrorData rfl).1.1, ?_⟩
  have := ((C1_status_table sampleErrorBody sampleErrorData
    rfl).2.2.2.2.2.2 500 (by decide)).2.2
  simpa using this

/-- Claim C7: the classifier treats a body whose fields are nested
under an `error` key and a body carrying the same fields at top level
identically (whenever the top-level body itself has no `error` key). -/
theorem C7_error_shape_equiv (fs : List (String × Json))
    (h : jget "error" fs = none) (s : Nat) :
    raise_for_status s [("error", Json.obj fs)] = raise_for_status s fs := by
  have h1 : error_payload [("error", Json.obj fs)] = some fs := rfl
  have h2 : error_payload fs = some fs := by
    simp [error_payload, h]
  simp only [raise_for_status, h1, h2]

/-- Witness for C7 at the 402 body of the unit test
`test_credits_exhausted`, with and without the `error` wrapper. -/
theorem C7_error_shape_equiv_witness :
    raise_for_status 402 [("error", Json.obj sampleErrorData)] =
      raise_for_status 402 sampleErrorData :=
  C7_error_shape_equiv sampleErrorData rfl 402

/-- Claim C4 is false on the code: classifying a 401 with an empty body
stores the shared placeholder `Unknown error`, not the per-class
default `Invalid or revoked API key.`. -/
theorem C4_counterexample :
    (raise_for_status 401 []).map XeroMLError.message =
      some (Json.str "Unknown error") ∧
    ¬ (raise_for_status 401 []).map XeroMLError.message =
        some (Json.str "Invalid or revoked API key.") := by
  refine ⟨rfl, ?_⟩
  intro hcontra
  have h1 : (raise_for_status 401 []).map XeroMLError.message =
      some (Json.str "Unknown error") := rfl
  rw [h1] at hcontra
  have h2 := Option.some.inj hcontra
  injection h2 with h3
  exact absurd h3 (by decide)

/-- Claim C4 amended: when the body omits `message`, the classified
failure carries the shared fallback `Unknown error` for every status;
the per-class defaults exist but apply only when a class is constructed
directly without a message. -/
theorem C4_amended_unknown_error (body ed : List (String × Json))
    (h : error_payload body = some ed) (hm : jget "message" ed = none) :
    (∀ s, (raise_for_status s body).map XeroMLError.message =
      some (Json.str "Unknown error")) ∧
    (InvalidAPIKeyError : XeroMLError).message =
      Json.str "Invalid or revoked API key." ∧
    (CreditsExhaustedError : XeroMLError).message = Json.str "Credits exhausted." ∧
    (RateLimitedError : XeroMLError).message = Json.str "Rate limit exceeded." ∧
    (ParseFailedError : XeroMLError).message = Json.str "Parse failed." ∧
    (SessionNotFoundError : XeroMLError).message = Json.str "Session not found." ∧
    (SessionEndedError : XeroMLError).message =
      Json.str "Session is already completed." := by
  refine ⟨?_, rfl, rfl, rfl, rfl, rfl, rfl⟩
  intro s
  simp only [raise_for_status, h, Option.some_bind, hm, Option.getD_none]
  cases hc : lookupErrorMap s with
  | none => rfl
  | some cls =>
    simp only [Option.map_some']
    exact congrArg some (errorMap_ctor_message hc _ _)

/-- Witness for C4 amended at a 402 body with a `code` but no
`message`. -/
theorem C4_amended_unknown_error_witness :
    (raise_for_status 402 [("error",
        Json.obj [("code", Json.str "credits_exhausted")])]).map
      XeroMLError.message = some (Json.str "Unknown error") :=
  (C4_amended_unknown_error
    [("error", Json.obj [("code", Json.str "credits_exhausted")])]
    [("code", Json.str "credits_exhausted")] rfl rfl).1 402

/-- Claim C2 (code bug): `list_sessions` crashes on a bare JSON
sequence body — `res.json().get(...)` raises `AttributeError` on a
list — while the same one-session content wrapped under `sessions`
decodes to the expected one-element sequence. -/
theorem C2_list_sessions_bare_list_crashes :
    XeroML.list_sessions_decode (Json.arr [Json.obj sampleSession]) = none ∧
    XeroML.list_sessions_decode
        (Json.obj [("sessions", Json.arr [Json.obj sampleSession])]) =
      some [⟨"s1", "active", 2, "2026-01-01T00:00:00Z", "2026-01-01T00:01:00Z"⟩] := by
  exact ⟨rfl, rfl⟩

/-- Claim C5: a success body delivering the IntentGraph fields nested
under a `graph` key and one delivering them as the top-level object
decode to the same IntentGraph, in the one-shot parse, the session
parse and the session getGraph operations (the top-level-shape object
itself carries no `graph` key). -/
theorem C5_graph_unwrap (body gfs : List (String × Json))
    (h1 : jget "graph" body = some (Json.obj gfs))
    (h2 : jget "graph" gfs = none) :
    XeroML.parse_decode (Json.obj body) = XeroML.parse_decode (Json.obj gfs) ∧
    AsyncXeroML.parse_decode (Json.obj body) = AsyncXeroML.parse_decode (Json.obj gfs) ∧
    Session.parse_decode (Json.obj body) = Session.parse_decode (Json.obj gfs) ∧
    AsyncSession.parse_decode (Json.obj body) = AsyncSession.parse_decode (Json.obj gfs) ∧
    Session.get_graph_decode (Json.obj body) = Session.get_graph_decode (Json.obj gfs) ∧
    AsyncSession.get_graph_decode (Json.obj body) =
      AsyncSession.get_graph_decode (Json.obj gfs) ∧
    XeroML.parse_decode (Json.obj gfs) = validateIntentGraph gfs := by
  refine ⟨?_, ?_, ?_, ?_, ?_, ?_, ?_⟩
  all_goals
    simp [XeroML.parse_decode, AsyncXeroML.parse_decode, Session.parse_decode,
      AsyncSession.parse_decode, Session.get_graph_decode,
      AsyncSession.get_graph_decode, h1, h2]

/-- Witness for C5 at the unit-test fixture: `SAMPLE_PARSE_RESPONSE`
(graph wrapped) against `SAMPLE_GRAPH` (graph at top level). -/
theorem C5_graph_unwrap_witness :
    XeroML.parse_decode (Json.obj sampleParseResponse) =
      XeroML.parse_decode (Json.obj sampleGraph) :=
  (C5_graph_unwrap sampleParseResponse sampleGraph rfl rfl).1

/-- Inversion step for one monadic bind over `Option`. -/
lemma seqInv {α β : Type} {x : Option α} {f : α → Option β} {b : β}
    (h : (x >>= f) = some b) : ∃ a, x = some a ∧ f a = some b := by
  cases x with
  | none => exact absurd h (by simp)
  | some a => exact ⟨a, rfl, h⟩

/-- Binding a constant failure always fails. -/
lemma optionBindConstNone {α β : Type} (x : Option α) :
    (x.bind fun _ => (none : Option β)) = none := by
  cases x <;> rfl

/-- Out-of-range `confidence` makes `IntentMeta` validation fail. -/
lemma validateIntentMeta_confidence_out {fs : List (String × Json)} {q : Rat}
    (hq : jget "confidence" fs = some (Json.num q)) (hout : ¬(0 ≤ q ∧ q ≤ 1)) :
    validateIntentMeta fs = none := by
  have hc : reqUnitFloat fs "confidence" = none := by
    simp [reqUnitFloat, hq, hout]
  unfold validateIntentMeta
  simp only [Option.bind_eq_bind, hc, Option.none_bind, optionBindConstNone]

/-- Out-of-range `priority` makes `SubGoal` validation fail, at any
recursion fuel. -/
lemma validateSubGoalF_priority_out (fuel : Nat) {fs : List (String × Json)}
    {q : Rat} (hq : jget "priority" fs = some (Json.num q))
    (hout : ¬(0 ≤ q ∧ q ≤ 1)) :
    validateSubGoalF fuel (Json.obj fs) = none := by
  have hp : reqUnitFloat fs "priority" = none := by
    simp [reqUnitFloat, hq, hout]
  cases fuel with
  | zero => rfl
  | succ n =>
    unfold validateSubGoalF
    simp only [Option.bind_eq_bind, hp, Option.none_bind, optionBindConstNone]

/-- Out-of-range `uncertainty` makes `SubGoal` validation fail, at any
recursion fuel. -/
lemma validateSubGoalF_uncertainty_out (fuel : Nat) {fs : List (String × Json)}
    {q : Rat} (hq : jget "uncertainty" fs = some (Json.num q))
    (hout : ¬(0 ≤ q ∧ q ≤ 1)) :
    validateSubGoalF fuel (Json.obj fs) = none := by
  have hu : unitFloatD fs "uncertainty" (mkRat 1 2) = none := by
    simp [unitFloatD, hq, hout]
  cases fuel with
  | zero => rfl
  | succ n =>
    unfold validateSubGoalF
    simp only [Option.bind_eq_bind, hu, Option.none_bind, optionBindConstNone]

/-- An enumerated `LatentStates` field outside its fixed set makes
validation fail (generic over the four fields). -/
lemma validateLatentStates_enum_out {fs : List (String × Json)} {k : String}
    {allowed : List String}
    (hfield : reqEnumStr allowed fs k = none)
    (hks : (k = "action_readiness" ∧ allowed = ["exploring", "deciding", "executing"]) ∨
      (k = "ambiguity_level" ∧ allowed = ["clear", "partial", "conflicting"]) ∨
      (k = "risk_sensitivity" ∧ allowed = ["low", "medium", "high"]) ∨
      (k = "intent_scope" ∧ allowed = ["single", "compound", "multi_step"])) :
    validateLatentStates fs = none := by
  unfold validateLatentStates
  rcases hks with ⟨hk, ha⟩ | ⟨hk, ha⟩ | ⟨hk, ha⟩ | ⟨hk, ha⟩ <;> subst hk <;> subst ha <;>
    simp only [Option.bind_eq_bind, hfield, Option.none_bind, optionBindConstNone]

/-- A `status` outside its fixed set makes `SubGoal` validation fail,
at any recursion fuel. -/
lemma validateSubGoalF_status_out (fuel : Nat) {fs : List (String × Json)}
    (hs : enumStrD subGoalStatusSet fs "status" "pending" = none) :
    validateSubGoalF fuel (Json.obj fs) = none := by
  cases fuel with
  | zero => rfl
  | succ n =>
    unfold validateSubGoalF
    simp only [Option.bind_eq_bind, hs, Option.none_bind, optionBindConstNone]

/-- Successful `SubGoal` validation pins every defaulted field to its
extractor. -/
lemma validateSubGoalF_success_fields (fuel : Nat) (fs : List (String × Json))
    (sg : SubGoal) (h : validateSubGoalF fuel (Json.obj fs) = some sg) :
    (∃ status, enumStrD subGoalStatusSet fs "status" "pending" = some status ∧
        sg.status = status) ∧
    (∃ u, unitFloatD fs "uncertainty" (mkRat 1 2) = some u ∧ sg.uncertainty = u) ∧
    (∃ m, strD fs "modality" "text" = some m ∧ sg.modality = m) ∧
    (∃ l, strListD fs "success_criteria" = some l ∧ sg.success_criteria = l) ∧
    (∃ l, strListD fs "constraints" = some l ∧ sg.constraints = l) ∧
    (∃ l, strListD fs "context_requirements" = some l ∧
        sg.context_requirements = l) ∧
    (∃ l, strListD fs "dependencies" = some l ∧ sg.dependencies = l) ∧
    (∃ k l, validateChildrenF k fs = some l ∧ sg.children = l) := by
  cases fuel with
  | zero => exact absurd h (by simp [validateSubGoalF])
  | succ n =>
    unfold validateSubGoalF at h
    obtain ⟨i, hi, h⟩ := seqInv h
    obtain ⟨g, hg, h⟩ := seqInv h
    obtain ⟨st, hst, h⟩ := seqInv h
    obtain ⟨pr, hpr, h⟩ := seqInv h
    obtain ⟨sc, hsc, h⟩ := seqInv h
    obtain ⟨cs, hcs, h⟩ := seqInv h
    obtain ⟨un, hun, h⟩ := seqInv h
    obtain ⟨cr, hcr, h⟩ := seqInv h
    obtain ⟨mo, hmo, h⟩ := seqInv h
    obtain ⟨dp, hdp, h⟩ := seqInv h
    obtain ⟨ch, hch, h⟩ := seqInv h
    have hfin := Option.some.inj h
    subst hfin
    exact ⟨⟨st, hst, rfl⟩, ⟨un, hun, rfl⟩, ⟨mo, hmo, rfl⟩, ⟨sc, hsc, rfl⟩,
      ⟨cs, hcs, rfl⟩, ⟨cr, hcr, rfl⟩, ⟨dp, hdp, rfl⟩, ⟨n, ch, hch, rfl⟩⟩

/-- Validation of an absent `children` field yields the empty list. -/
lemma validateChildrenF_absent (k : Nat) {fs : List (String × Json)}
    {l : List SubGoal} (h : validateChildrenF k fs = some l)
    (habs : jget "children" fs = none) : l = [] := by
  cases k with
  | zero => exact absurd h (by simp [validateChildrenF])
  | succ m =>
    unfold validateChildrenF at h
    rw [habs] at h
    simp only [Option.getD_none] at h
    have hnil : validateSubGoalListF m [] = some [] := by cases m <;> rfl
    rw [hnil] at h
    exact (Option.some.inj h).symm

/-- Successful `IntentMeta` validation pins `source` and
`negotiation_history` to their extractors. -/
lemma validateIntentMeta_success_defaults (fs : List (String × Json))
    (m : IntentMeta) (h : validateIntentMeta fs = some m) :
    (∃ s, strD fs "source" "user_input" = some s ∧ m.source = s) ∧
    (∃ l, strListD fs "negotiation_history" = some l ∧
        m.negotiation_history = l) := by
  unfold validateIntentMeta at h
  obtain ⟨src, hsrc, h⟩ := seqInv h
  obtain ⟨cf, hcf, h⟩ := seqInv h
  obtain ⟨nh, hnh, h⟩ := seqInv h
  obtain ⟨ls, hls, h⟩ := seqInv h
  have hfin := Option.some.inj h
  subst hfin
  exact ⟨⟨src, hsrc, rfl⟩, ⟨nh, hnh, rfl⟩⟩

/-- Successful `IntentGraph` validation pins `schema_version` to its
extractor. -/
lemma validateIntentGraph_success_version (fs : List (String × Json))
    (g : IntentGraph) (h : validateIntentGraph fs = some g) :
    ∃ sv, strD fs "schema_version" "0.1.0" = some sv ∧
      g.schema_version = sv := by
  unfold validateIntentGraph at h
  obtain ⟨sv, hsv, h⟩ := seqInv h
  obtain ⟨rg, hrg, h⟩ := seqInv h
  obtain ⟨sgs, hsgs, h⟩ := seqInv h
  obtain ⟨mt, hmt, h⟩ := seqInv h
  have hfin := Option.some.inj h
  subst hfin
  exact ⟨sv, hsv, rfl⟩

/-- Successful `UsageMonth` validation pins `total_latency_ms` to its
extractor. -/
lemma validateUsageMonth_success_latency (fs : List (String × Json))
    (u : UsageMonth) (h : validateUsageMonth (Json.obj fs) = some u) :
    ∃ t, intD fs "total_latency_ms" 0 = some t ∧ u.total_latency_ms = t := by
  unfold validateUsageMonth at h
  obtain ⟨mo, hmo, h⟩ := seqInv h
  obtain ⟨pc, hpc, h⟩ := seqInv h
  obtain ⟨dc, hdc, h⟩ := seqInv h
  obtain ⟨scr, hscr, h⟩ := seqInv h
  obtain ⟨tl, htl, h⟩ := seqInv h
  have hfin := Option.some.inj h
  subst hfin
  exact ⟨tl, htl, rfl⟩

/-- Successful `UsageInfo` validation pins `usage` to its extractor. -/
lemma validateUsageInfo_success_usage (fs : List (String × Json))
    (info : UsageInfo) (h : validateUsageInfo fs = some info) :
    ∃ l, usageField fs = some l ∧ info.usage = l := by
  unfold validateUsageInfo at h
  obtain ⟨cr, hcr, h⟩ := seqInv h
  obtain ⟨ti, hti, h⟩ := seqInv h
  obtain ⟨rl, hrl, h⟩ := seqInv h
  obtain ⟨us, hus, h⟩ := seqInv h
  have hfin := Option.some.inj h
  subst hfin
  exact ⟨us, hus, rfl⟩

/-- Successful `DriftReport` validation pins the five optional fields to
their extractors. -/
lemma validateDriftReport_success_fields (fs : List (String × Json))
    (r : DriftReport) (h : validateDriftReport fs = some r) :
    (∃ v, optStr fs "drift_type" = some v ∧ r.drift_type = v) ∧
    (∃ v, optFloat fs "severity" = some v ∧ r.severity = v) ∧
    (∃ v, optStr fs "description" = some v ∧ r.description = v) ∧
    (∃ v, optStr fs "previous_goal" = some v ∧ r.previous_goal = v) ∧
    (∃ v, optStr fs "current_goal" = some v ∧ r.current_goal = v) := by
  unfold validateDriftReport at h
  obtain ⟨dt, hdt, h⟩ := seqInv h
  obtain ⟨ty, hty, h⟩ := seqInv h
  obtain ⟨sv, hsv, h⟩ := seqInv h
  obtain ⟨de, hde, h⟩ := seqInv h
  obtain ⟨pg, hpg, h⟩ := seqInv h
  obtain ⟨cg, hcg, h⟩ := seqInv h
  have hfin := Option.some.inj h
  subst hfin
  exact ⟨⟨ty, hty, rfl⟩, ⟨sv, hsv, rfl⟩, ⟨de, hde, rfl⟩, ⟨pg, hpg, rfl⟩,
    ⟨cg, hcg, rfl⟩⟩

/-- Claim C3 is false on the code for `severity`: a DriftReport with
`severity` present and greater than 1.0 passes validation unchanged
(the source declares `severity: float | None = None` with no bounds). -/
theorem C3_counterexample :
    validateDriftReport
        [("detected", Json.bool true), ("severity", Json.num (mkRat 3 2))] =
      some ⟨true, none, some (mkRat 3 2), none, none, none⟩ ∧
    ¬ (0 ≤ mkRat 3 2 ∧ mkRat 3 2 ≤ 1) := by
  exact ⟨rfl, by decide⟩

/-- Claim C3 amended: `confidence`, `priority` and `uncertainty` are
rejected outside [0, 1] and accept the boundary values, but `severity`
carries no range constraint — any numeric value is accepted. -/
theorem C3_numeric_ranges :
    (∀ fs q, jget "confidence" fs = some (Json.num q) → ¬(0 ≤ q ∧ q ≤ 1) →
      validateIntentMeta fs = none) ∧
    (∀ fs q, jget "priority" fs = some (Json.num q) → ¬(0 ≤ q ∧ q ≤ 1) →
      validateSubGoal (Json.obj fs) = none) ∧
    (∀ fs q, jget "uncertainty" fs = some (Json.num q) → ¬(0 ≤ q ∧ q ≤ 1) →
      validateSubGoal (Json.obj fs) = none) ∧
    (validateIntentMeta (("confidence", Json.num 0) :: sampleMeta)).map
      IntentMeta.confidence = some 0 ∧
    (validateIntentMeta (("confidence", Json.num 1) :: sampleMeta)).map
      IntentMeta.confidence = some 1 ∧
    (validateSubGoal (Json.obj (("priority", Json.num 0) :: sampleSubGoal))).map
      SubGoal.priority = some 0 ∧
    (validateSubGoal (Json.obj (("priority", Json.num 1) :: sampleSubGoal))).map
      SubGoal.priority = some 1 ∧
    (validateSubGoal (Json.obj (("uncertainty", Json.num 0) :: sampleSubGoal))).map
      SubGoal.uncertainty = some 0 ∧
    (validateSubGoal (Json.obj (("uncertainty", Json.num 1) :: sampleSubGoal))).map
      SubGoal.uncertainty = some 1 ∧
    (∀ q, validateDriftReport
        [("detected", Json.bool true), ("severity", Json.num q)] =
      some ⟨true, none, some q, none, none, none⟩) := by
  refine ⟨?_, ?_, ?_, rfl, rfl, rfl, rfl, rfl, rfl, fun q => rfl⟩
  · exact fun fs q hq hout => validateIntentMeta_confidence_out hq hout
  · exact fun fs q hq hout => validateSubGoalF_priority_out _ hq hout
  · exact fun fs q hq hout => validateSubGoalF_uncertainty_out _ hq hout

/-- Witness for C3 at the boundary-violating inputs of the spec
(1.0001 and -0.0001). -/
theorem C3_numeric_ranges_witness :
    validateIntentMeta
        (("confidence", Json.num (mkRat 10001 10000)) :: sampleMeta) = none ∧
    validateSubGoal (Json.obj
        (("priority", Json.num (mkRat 10001 10000)) :: sampleSubGoal)) = none ∧
    validateSubGoal (Json.obj
        (("uncertainty", Json.num (mkRat (-1) 10000)) :: sampleSubGoal)) = none := by
  refine ⟨?_, ?_, ?_⟩
  · exact C3_numeric_ranges.1 _ _ rfl (by decide)
  · exact C3_numeric_ranges.2.1 _ _ rfl (by decide)
  · exact C3_numeric_ranges.2.2.1 _ _ rfl (by decide)

/-- Claim C6: enumerated string fields reject values outside their
fixed set (and accept members, e.g. `executing`), and every field with
a declared default — SubGoal status, uncertainty, modality,
success_criteria, constraints, context_requirements, dependencies and
children; IntentMeta source and negotiation_history; IntentGraph
schema_version; UsageMonth total_latency_ms; UsageInfo usage; the five
optional DriftReport fields — is populated with that default exactly
when absent: a present valid value is kept verbatim, a present invalid
value fails validation instead of being defaulted. -/
theorem C6_enums_and_defaults :
    (∀ fs s, jget "action_readiness" fs = some (Json.str s) →
      s ∉ (["exploring", "deciding", "executing"] : List String) →
      validateLatentStates fs = none) ∧
    (∀ fs s, jget "ambiguity_level" fs = some (Json.str s) →
      s ∉ (["clear", "partial", "conflicting"] : List String) →
      validateLatentStates fs = none) ∧
    (∀ fs s, jget "risk_sensitivity" fs = some (Json.str s) →
      s ∉ (["low", "medium", "high"] : List String) →
      validateLatentStates fs = none) ∧
    (∀ fs s, jget "intent_scope" fs = some (Json.str s) →
      s ∉ (["single", "compound", "multi_step"] : List String) →
      validateLatentStates fs = none) ∧
    (validateLatentStates sampleLatent).map LatentStates.action_readiness =
      some "executing" ∧
    (∀ fs s, jget "status" fs = some (Json.str s) → s ∉ subGoalStatusSet →
      validateSubGoal (Json.obj fs) = none) ∧
    (∀ fs sg, validateSubGoal (Json.obj fs) = some sg →
      (jget "status" fs = none → sg.status = "pending") ∧
      (jget "uncertainty" fs = none → sg.uncertainty = mkRat 1 2) ∧
      (jget "modality" fs = none → sg.modality = "text") ∧
      (jget "success_criteria" fs = none → sg.success_criteria = []) ∧
      (jget "constraints" fs = none → sg.constraints = []) ∧
      (jget "context_requirements" fs = none → sg.context_requirements = []) ∧
      (jget "dependencies" fs = none → sg.dependencies = []) ∧
      (jget "children" fs = none → sg.children = []) ∧
      (∀ s, jget "status" fs = some (Json.str s) → sg.status = s)) ∧
    (∀ fs m, validateIntentMeta fs = some m →
      (jget "source" fs = none → m.source = "user_input") ∧
      (jget "negotiation_history" fs = none → m.negotiation_history = [])) ∧
    (∀ fs g, validateIntentGraph fs = some g →
      jget "schema_version" fs = none → g.schema_version = "0.1.0") ∧
    (∀ fs u, validateUsageMonth (Json.obj fs) = some u →
      jget "total_latency_ms" fs = none → u.total_latency_ms = 0) ∧
    (∀ fs info, validateUsageInfo fs = some info → jget "usage" fs = none →
      info.usage = []) ∧
    (∀ fs r, validateDriftReport fs = some r →
      (jget "drift_type" fs = none → r.drift_type = none) ∧
      (jget "severity" fs = none → r.severity = none) ∧
      (jget "description" fs = none → r.description = none) ∧
      (jget "previous_goal" fs = none → r.previous_goal = none) ∧
      (jget "current_goal" fs = none → r.current_goal = none)) := by
  refine ⟨?_, ?_, ?_, ?_, rfl, ?_, ?_, ?_, ?_, ?_, ?_, ?_⟩
  · intro fs s hq hmem
    exact validateLatentStates_enum_out (by simp [reqEnumStr, hq, hmem])
      (Or.inl ⟨rfl, rfl⟩)
  · intro fs s hq hmem
    exact validateLatentStates_enum_out (by simp [reqEnumStr, hq, hmem])
      (Or.inr (Or.inl ⟨rfl, rfl⟩))
  · intro fs s hq hmem
    exact validateLatentStates_enum_out (by simp [reqEnumStr, hq, hmem])
      (Or.inr (Or.inr (Or.inl ⟨rfl, rfl⟩)))
  · intro fs s hq hmem
    exact validateLatentStates_enum_out (by simp [reqEnumStr, hq, hmem])
      (Or.inr (Or.inr (Or.inr ⟨rfl, rfl⟩)))
  · intro fs s hq hmem
    exact validateSubGoalF_status_out _ (by simp [enumStrD, hq, hmem])
  · intro fs sg hsucc
    obtain ⟨⟨st, hst, hsgst⟩, ⟨un, hun, hsgun⟩, ⟨mo, hmo, hsgmo⟩,
      ⟨sc, hsc, hsgsc⟩, ⟨cs, hcs, hsgcs⟩, ⟨cr, hcr, hsgcr⟩,
      ⟨dp, hdp, hsgdp⟩, ⟨k, ch, hch, hsgch⟩⟩ :=
      validateSubGoalF_success_fields _ fs sg hsucc
    refine ⟨?_, ?_, ?_, ?_, ?_, ?_, ?_, ?_, ?_⟩
    · intro habs
      simp only [enumStrD, habs] at hst
      rw [hsgst, ← Option.some.inj hst]
    · intro habs
      simp only [unitFloatD, habs] at hun
      rw [hsgun, ← Option.some.inj hun]
    · intro habs
      simp only [strD, habs] at hmo
      rw [hsgmo, ← Option.some.inj hmo]
    · intro habs
      simp only [strListD, habs] at hsc
      rw [hsgsc, ← Option.some.inj hsc]
    · intro habs
      simp only [strListD, habs] at hcs
      rw [hsgcs, ← Option.some.inj hcs]
    · intro habs
      simp only [strListD, habs] at hcr
      rw [hsgcr, ← Option.some.inj hcr]
    · intro habs
      simp only [strListD, habs] at hdp
      rw [hsgdp, ← Option.some.inj hdp]
    · intro habs
      rw [hsgch, validateChildrenF_absent k hch habs]
    · intro s hpres
      simp only [enumStrD, hpres] at hst
      by_cases hmem : s ∈ subGoalStatusSet
      · rw [if_pos hmem] at hst
        rw [hsgst, ← Option.some.inj hst]
      · rw [if_neg hmem] at hst
        exact absurd hst (by simp)
  · intro fs m hsucc
    obtain ⟨⟨src, hsrc, hmsrc⟩, ⟨nh, hnh, hmnh⟩⟩ :=
      validateIntentMeta_success_defaults fs m hsucc
    refine ⟨?_, ?_⟩
    · intro habs
      simp only [strD, habs] at hsrc
      rw [hmsrc, ← Option.some.inj hsrc]
    · intro habs
      simp only [strListD, habs] at hnh
      rw [hmnh, ← Option.some.inj hnh]
  · intro fs g hsucc habs
    obtain ⟨sv, hsv, hgsv⟩ := validateIntentGraph_success_version fs g hsucc
    simp only [strD, habs] at hsv
    rw [hgsv, ← Option.some.inj hsv]
  · intro fs u hsucc habs
    obtain ⟨tl, htl, hutl⟩ := validateUsageMonth_success_latency fs u hsucc
    simp only [intD, habs] at htl
    rw [hutl, ← Option.some.inj htl]
  · intro fs info hsucc habs
    obtain ⟨us, hus, hius⟩ := validateUsageInfo_success_usage fs info hsucc
    simp only [usageField, habs] at hus
    rw [hius, ← Option.some.inj hus]
  · intro fs r hsucc
    obtain ⟨⟨ty, hty, hrty⟩, ⟨sv, hsv, hrsv⟩, ⟨de, hde, hrde⟩,
      ⟨pg, hpg, hrpg⟩, ⟨cg, hcg, hrcg⟩⟩ :=
      validateDriftReport_success_fields fs r hsucc
    refine ⟨?_, ?_, ?_, ?_, ?_⟩
    · intro habs
      simp only [optStr, habs] at hty
      rw [hrty, ← Option.some.inj hty]
    · intro habs
      simp only [optFloat, habs] at hsv
      rw [hrsv, ← Option.some.inj hsv]
    · intro habs
      simp only [optStr, habs] at hde
      rw [hrde, ← Option.some.inj hde]
    · intro habs
      simp only [optStr, habs] at hpg
      rw [hrpg, ← Option.some.inj hpg]
    · intro habs
      simp only [optStr, habs] at hcg
      rw [hrcg, ← Option.some.inj hcg]

/-- Witness for C6: `pondering` rejected, an out-of-set status
rejected, and the defaults of a minimal sub-goal payload. -/
theorem C6_enums_and_defaults_witness :
    validateLatentStates
        (("action_readiness", Json.str "pondering") :: sampleLatent) = none ∧
    validateSubGoal (Json.obj
        (("status", Json.str "paused") :: sampleSubGoal)) = none ∧
    SubGoal.status
        (SubGoal.mk "sg" "g" "pending" 1 [] [] (mkRat 1 2) [] "text" [] []) =
      "pending" := by
  refine ⟨?_, ?_, ?_⟩
  · exact C6_enums_and_defaults.1 _ "pondering" rfl (by decide)
  · exact C6_enums_and_defaults.2.2.2.2.2.1 _ "paused" rfl (by decide)
  · exact (C6_enums_and_defaults.2.2.2.2.2.2.1 minimalSubGoal _ rfl).1 rfl

end XeromlSDK
